import Mathlib

/-!
Verification of the YouTube backend (`backend/youtube_api.py`,
`backend/auth.py`) against its natural-language specification.

The Python code is shallowly embedded: pure string manipulation becomes
functions on `List Char` / `String`; every remote interaction (the Google
API client) is abstracted into an `Env` of oracle functions returning
`Except PyExn _` (a raised Python exception is `Except.error`); each public
operation returns its value together with the list of remote calls it
performed, so "performs no remote call" is expressible as an empty trace.
-/

/-! ## extract_video_id (youtube_api.py lines 16-30)

The code searches two regex patterns in order:
  `(?:v=|\/)([0-9A-Za-z_-]{11})(?:[&\?#]|$)` and
  `youtu\.be\/([0-9A-Za-z_-]{11})(?:[&\?#]|$)`.
`re.search` returns the leftmost match.  Both patterns are anchored-free
searches of a fixed-width alternative, so matching at one position is the
`tryP1` / `tryYB` test below and the search is a left-to-right scan. -/

/-- Character class `[0-9A-Za-z_-]` of the id capture group. -/
def isIdChar (c : Char) : Bool :=
  c.isDigit || c.isUpper || c.isLower || c == '_' || c == '-'

/-- Delimiter class `[&\?#]` that may follow the 11-character id. -/
def isDelim (c : Char) : Bool :=
  c == '&' || c == '?' || c == '#'

/-- The trailing context `(?:[&\?#]|$)`: end of string or a delimiter. -/
def delimOk : List Char → Bool
  | [] => true
  | c :: _ => isDelim c

/-- The capture `([0-9A-Za-z_-]{11})(?:[&\?#]|$)` applied at a position:
eleven id characters followed by a delimiter or the end of the string. -/
def takeId (t : List Char) : Option (List Char) :=
  let id := t.take 11
  if id.length == 11 && id.all isIdChar && delimOk (t.drop 11) then some id
  else none

/-- One attempt of pattern `(?:v=|\/)(id)(?:[&\?#]|$)` at a fixed
position (the alternatives start with distinct characters, so the
if-chain is exactly the regex alternation). -/
def tryP1 (t : List Char) : Option (List Char) :=
  if t.take 2 = ['v', '='] then takeId (t.drop 2)
  else if t.take 1 = ['/'] then takeId (t.drop 1)
  else none

/-- Literal marker `youtu\.be\/` of the second pattern. -/
def ybMarker : List Char := ['y', 'o', 'u', 't', 'u', '.', 'b', 'e', '/']

/-- One attempt of pattern `youtu\.be\/(id)(?:[&\?#]|$)` at a fixed position. -/
def tryYB (t : List Char) : Option (List Char) :=
  if t.take 9 = ybMarker then takeId (t.drop 9) else none

/-- `re.search` of the first pattern: leftmost matching position wins. -/
def searchP1 : List Char → Option (List Char)
  | [] => none
  | c :: t =>
    match tryP1 (c :: t) with
    | some id => some id
    | none => searchP1 t

/-- `re.search` of the second pattern. -/
def searchYB : List Char → Option (List Char)
  | [] => none
  | c :: t =>
    match tryYB (c :: t) with
    | some id => some id
    | none => searchYB t

/-- Body of `extract_video_id`: the patterns are tried in order. -/
def extractIdL (s : List Char) : Option (List Char) :=
  match searchP1 s with
  | some id => some id
  | none => searchYB s

/-- `extract_video_id(url)` from youtube_api.py (the `isinstance` guard is
subsumed by the `String` type). -/
def extract_video_id (url : String) : Option String :=
  (extractIdL url.data).map String.mk

/-! ### The spec's URL grammar, written from the spec's words:
an accepted shape is `v=<id>`, `/<id>` or `youtu.be/<id>` occurring at some
position, where the id is an 11-character token over `[0-9A-Za-z_-]`
followed by `&`, `?`, `#` or the end of the string. -/

/-- Spec grammar: an 11-character id over the accepted character set sits at
position `i` of `s` and is followed by a delimiter or the end of the string. -/
def specIdAt (s : List Char) (i : Nat) (id : List Char) : Prop :=
  id.length = 11 ∧ id.all isIdChar = true ∧ (s.drop i).take 11 = id ∧
    delimOk (s.drop (i + 11)) = true

/-- Spec grammar: one of the accepted URL shapes occurs at position `i` of
`s` with id `id`. -/
def shapeAt (s : List Char) (i : Nat) (id : List Char) : Prop :=
  ((s.drop i).take 2 = ['v', '='] ∧ specIdAt s (i + 2) id) ∨
  ((s.drop i).take 1 = ['/'] ∧ specIdAt s (i + 1) id) ∨
  ((s.drop i).take 9 = ybMarker ∧ specIdAt s (i + 9) id)

instance (s : List Char) (i : Nat) (id : List Char) : Decidable (specIdAt s i id) := by
  unfold specIdAt; infer_instance

instance (s : List Char) (i : Nat) (id : List Char) : Decidable (shapeAt s i id) := by
  unfold shapeAt; infer_instance

/-- The string holds an 11-character token over `[0-9A-Za-z_-]` somewhere
(the precondition of the spec's negative clause, decidably). -/
def hasIdToken : List Char → Bool
  | [] => false
  | c :: t =>
    (((c :: t).take 11).length == 11 && ((c :: t).take 11).all isIdChar) ||
      hasIdToken t

/-! ## Remote environment, results and call traces

Every Python function in youtube_api.py wraps its remote calls in
`try/except`.  A remote primitive that raises is a primitive returning
`Except.error`; the exception taxonomy the handlers distinguish is
`HttpError` (with the `resp.status` attribute the code reads via
`getattr`), `socket.error`, and any other `Exception`. -/

/-- A raised Python exception, as distinguished by the `except` clauses. -/
inductive PyExn where
  | httpError (status : Option String) (msg : String)
  | socketError (msg : String)
  | otherError (msg : String)
deriving DecidableEq

/-- `str(e)` of an exception (the text the handlers interpolate). -/
def pyMsg : PyExn → String
  | .httpError _ m => m
  | .socketError m => m
  | .otherError m => m

/-- The JSON shape every operation returns: `{"message"/payload: ...}` on
success or `{"error": msg}` on failure. -/
inductive ApiOut (α : Type) where
  | ok (payload : α)
  | err (msg : String)
deriving DecidableEq

/-- The discriminant of a returned object: which of the two keys
(`message`-like payload vs `error`) it carries.  This is all a caller can
branch on without reading the message text. -/
def apiTag {α : Type} : ApiOut α → Bool
  | .ok _ => true
  | .err _ => false

/-- `{videoId, title, channelTitle}` record built by search. -/
structure VideoRef where
  videoId : String
  title : String
  channelTitle : String
deriving DecidableEq

/-- A `snippet` sub-dictionary: `.get` returns `none` for a missing key. -/
structure SnippetData where
  title : Option String
  channelTitle : Option String
deriving DecidableEq

/-- One item of a remote search response.  `item["id"]` raises `KeyError`
when absent (hence `Option` at the outer level), `.get("videoId")` does not. -/
structure SearchItem where
  id : Option (Option String)
  snippet : Option SnippetData
deriving DecidableEq

/-- One item of the liked-videos response (`item.get("id")` never raises). -/
structure LikedItem where
  id : Option String
  snippet : Option SnippetData
deriving DecidableEq

/-- A liked video as the code rebuilds it: `{videoId, title, channelTitle}`. -/
structure LikedVideo where
  videoId : Option String
  title : String
  channelTitle : String
deriving DecidableEq

/-- `snippet` of a `videos().list` item used for the channel lookup. -/
structure VideoSnippet where
  channelId : Option String
deriving DecidableEq

/-- One item of a `videos().list` response (`item["snippet"]` raises when
absent, `.get("channelId")` does not). -/
structure VideoItem where
  snippet : Option VideoSnippet
deriving DecidableEq

/-- One remote interaction (client construction or an API request). -/
inductive Call where
  | buildClient
  | searchList (query : String) (maxResults : Nat)
  | rate (videoId : String)
  | commentInsert (videoId : String) (text : String)
  | subsInsert (channelId : String)
  | videosListById (videoId : String)
  | likedList (maxResults : Nat)
deriving DecidableEq

/-- The remote service and client construction, as oracles.  `build` abstracts
`_get_youtube_client()` (credential loading plus `build(...)`), which the
operations call inside their `try` blocks. -/
structure Env where
  build : Except PyExn Unit
  searchList : String → Nat → Except PyExn (List SearchItem)
  rate : String → Except PyExn Unit
  commentInsert : String → String → Except PyExn Unit
  subsInsert : String → Except PyExn Unit
  videosList : String → Except PyExn (List VideoItem)
  likedList : Nat → Except PyExn (List LikedItem)

/-! ## search_videos (lines 49-78) -/

/-- The result-building loop of `search_videos`: `vid = item["id"].get("videoId")`
(raising `KeyError` when `"id"` is missing), snippet defaults, and the
truthiness test `if vid:` which skips `None` and the empty string. -/
def collectSearchItems : List SearchItem → Except PyExn (List VideoRef)
  | [] => .ok []
  | item :: rest =>
    match item.id with
    | none => .error (.otherError "KeyError: id")
    | some vidOpt =>
      let sn := item.snippet.getD ⟨none, none⟩
      match collectSearchItems rest with
      | .error e => .error e
      | .ok tail =>
        match vidOpt with
        | none => .ok tail
        | some vid =>
          if vid = "" then .ok tail
          else .ok (⟨vid, sn.title.getD "", sn.channelTitle.getD ""⟩ :: tail)

/-- The `except` chain of `search_videos`: `HttpError`, `socket.error`,
then `Exception`. -/
def searchHandler : PyExn → ApiOut (List VideoRef)
  | .httpError _ m => .err ("HttpError: " ++ m)
  | .socketError m => .err ("Network error: " ++ m)
  | .otherError m => .err m

/-- `search_videos(query, max_results)`: value plus the remote calls made. -/
def search_videos (env : Env) (query : String) (maxResults : Nat) :
    Except PyExn (ApiOut (List VideoRef)) × List Call :=
  match env.build with
  | .error e => (.ok (searchHandler e), [.buildClient])
  | .ok _ =>
    match env.searchList query maxResults with
    | .error e => (.ok (searchHandler e), [.buildClient, .searchList query maxResults])
    | .ok items =>
      match collectSearchItems items with
      | .error e => (.ok (searchHandler e), [.buildClient, .searchList query maxResults])
      | .ok refs => (.ok (.ok refs), [.buildClient, .searchList query maxResults])

/-! ## like_video (lines 82-98) -/

/-- The `except` chain of `like_video`: `HttpError` with the special
`resp.status == "404"` case, then `Exception`. -/
def likeHandler : PyExn → ApiOut String
  | .httpError st m =>
    if st = some "404" then .err "Video not found or inaccessible (404)."
    else .err ("HttpError: " ++ m)
  | .socketError m => .err m
  | .otherError m => .err m

/-- `like_video(video_url)`. -/
def like_video (env : Env) (videoUrl : String) :
    Except PyExn (ApiOut String) × List Call :=
  match extract_video_id videoUrl with
  | none => (.ok (.err "Invalid video URL"), [])
  | some vid =>
    match env.build with
    | .error e => (.ok (likeHandler e), [.buildClient])
    | .ok _ =>
      match env.rate vid with
      | .error e => (.ok (likeHandler e), [.buildClient, .rate vid])
      | .ok _ => (.ok (.ok "👍 Done! I liked the video for you."), [.buildClient, .rate vid])

/-! ## comment_on_video (lines 102-125) -/

/-- The error message of the `except` chain shared by `comment_on_video`,
`subscribe_channel` and `get_liked_videos`: `HttpError` first, then the
catch-all `Exception`. -/
def genMsg : PyExn → String
  | .httpError _ m => "HttpError: " ++ m
  | .socketError m => m
  | .otherError m => m

/-- `comment_on_video(video_url, text)`.  The id is extracted first; the
`if not text` check runs second. -/
def comment_on_video (env : Env) (videoUrl : String) (text : String) :
    Except PyExn (ApiOut String) × List Call :=
  match extract_video_id videoUrl with
  | none => (.ok (.err "Invalid video URL"), [])
  | some vid =>
    if text = "" then (.ok (.err "Comment text required"), [])
    else
      match env.build with
      | .error e => (.ok (.err (genMsg e)), [.buildClient])
      | .ok _ =>
        match env.commentInsert vid text with
        | .error e => (.ok (.err (genMsg e)), [.buildClient, .commentInsert vid text])
        | .ok _ =>
          (.ok (.ok "💬 Done! I commented on the video for you."),
            [.buildClient, .commentInsert vid text])

/-! ## subscribe_channel (lines 129-151) with its channel lookup (33-45) -/

/-- `extract_channel_id_from_video(video_id)`: every failure path (including
a raising client build, a raising lookup, an empty item list or a missing
`snippet` key, whose `KeyError` the inner `except` catches) yields `None`. -/
def extract_channel_id_from_video (env : Env) (videoId : String) :
    Option String × List Call :=
  match env.build with
  | .error _ => (none, [.buildClient])
  | .ok _ =>
    match env.videosList videoId with
    | .error _ => (none, [.buildClient, .videosListById videoId])
    | .ok items =>
      match items with
      | [] => (none, [.buildClient, .videosListById videoId])
      | it :: _ =>
        match it.snippet with
        | none => (none, [.buildClient, .videosListById videoId])
        | some sn => (sn.channelId, [.buildClient, .videosListById videoId])

/-- `subscribe_channel(video_url)`.  Note the `if not channel_id:` truthiness
test also rejects an empty channel id, and the client is built a second time
inside the `try` block. -/
def subscribe_channel (env : Env) (videoUrl : String) :
    Except PyExn (ApiOut String) × List Call :=
  match extract_video_id videoUrl with
  | none => (.ok (.err "Invalid video URL"), [])
  | some vid =>
    match extract_channel_id_from_video env vid with
    | (chanOpt, t0) =>
      match chanOpt with
      | none => (.ok (.err "Channel not found from video"), t0)
      | some cid =>
        if cid = "" then (.ok (.err "Channel not found from video"), t0)
        else
          match env.build with
          | .error e => (.ok (.err (genMsg e)), t0 ++ [.buildClient])
          | .ok _ =>
            match env.subsInsert cid with
            | .error e => (.ok (.err (genMsg e)), t0 ++ [.buildClient, .subsInsert cid])
            | .ok _ =>
              (.ok (.ok "🔔 Done! Subscribed to the channel for you."),
                t0 ++ [.buildClient, .subsInsert cid])

/-! ## get_liked_videos (lines 155-179) -/

/-- One liked item mapped as the code does: `item.get("id")`,
`item.get("snippet", {}).get("title", "")`, same for the channel title. -/
def mkLikedVideo (it : LikedItem) : LikedVideo :=
  { videoId := it.id
    title := (match it.snippet with | none => "" | some sn => sn.title.getD "")
    channelTitle := (match it.snippet with | none => "" | some sn => sn.channelTitle.getD "") }

/-- `get_liked_videos(max_results)`. -/
def get_liked_videos (env : Env) (maxResults : Nat) :
    Except PyExn (ApiOut (List LikedVideo)) × List Call :=
  match env.build with
  | .error e => (.ok (.err (genMsg e)), [.buildClient])
  | .ok _ =>
    match env.likedList maxResults with
    | .error e => (.ok (.err (genMsg e)), [.buildClient, .likedList maxResults])
    | .ok items => (.ok (.ok (items.map mkLikedVideo)), [.buildClient, .likedList maxResults])

/-! ## get_recommended_videos (lines 183-218) -/

/-- Python's whitespace tokenizer `str.split()` (no separator): splits on
runs of whitespace and never yields an empty token.  `acc` is the current
word, reversed. -/
def pySplitAux : List Char → List Char → List (List Char)
  | [], acc => if acc = [] then [] else [acc.reverse]
  | c :: t, acc =>
    if c.isWhitespace then
      if acc = [] then pySplitAux t [] else acc.reverse :: pySplitAux t []
    else pySplitAux t (c :: acc)

/-- `title.split()`. -/
def pySplit (s : List Char) : List (List Char) := pySplitAux s []

/-- `" ".join(words)`. -/
def joinSpace : List (List Char) → List Char
  | [] => []
  | [w] => w
  | w :: ws => w ++ ' ' :: joinSpace ws

/-- `" ".join(title.split()[:4])` — the keyword query built from a title. -/
def firstFourWords (s : String) : String :=
  ⟨joinSpace ((pySplit s.data).take 4)⟩

/-- The per-liked-video loop of `get_recommended_videos`: build the keyword
query, skip it when empty, call `search_videos(keywords, 3)`, and extend
only with results that are lists (`isinstance(results, list)`); an error
dictionary is dropped.  A raising `search_videos` would propagate. -/
def gatherLoop (env : Env) : List LikedVideo → Except PyExn (List VideoRef) × List Call
  | [] => (.ok [], [])
  | v :: rest =>
    let keywords := firstFourWords v.title
    if keywords = "" then gatherLoop env rest
    else
      match search_videos env keywords 3 with
      | (.error e, t) => (.error e, t)
      | (.ok out, t) =>
        match gatherLoop env rest with
        | (.error e, t') => (.error e, t ++ t')
        | (.ok tail, t') =>
          match out with
          | .ok l => (.ok (l ++ tail), t ++ t')
          | .err _ => (.ok tail, t ++ t')

/-- The deduplication loop of `get_recommended_videos`: `seen` is the set of
already-kept ids, `cnt` is `len(unique)` so far; `if not vid or vid in seen:
continue`, and the `break` fires after appending once `len(unique) >=
max_results`. -/
def dedupLoop (maxResults : Nat) : List VideoRef → List String → Nat → List VideoRef
  | [], _, _ => []
  | r :: rest, seen, cnt =>
    if r.videoId = "" ∨ r.videoId ∈ seen then dedupLoop maxResults rest seen cnt
    else if maxResults ≤ cnt + 1 then [r]
    else r :: dedupLoop maxResults rest (r.videoId :: seen) (cnt + 1)

/-- `get_recommended_videos(max_results)`: fetch up to 10 liked videos,
return their error dictionary unchanged if the fetch failed, gather up to
3 search results per keyword query, deduplicate and stop at `max_results`. -/
def get_recommended_videos (env : Env) (maxResults : Nat) :
    Except PyExn (ApiOut (List VideoRef)) × List Call :=
  match get_liked_videos env 10 with
  | (.error e, t) => (.ok (.err (pyMsg e)), t)
  | (.ok (.err m), t) => (.ok (.err m), t)
  | (.ok (.ok liked), t) =>
    match gatherLoop env liked with
    | (.error e, t') => (.ok (.err (pyMsg e)), t ++ t')
    | (.ok gathered, t') => (.ok (.ok (dedupLoop maxResults gathered [] 0)), t ++ t')

/-! ## Reference recommendation algorithm, written from the spec's words
(section 4.5): concatenate, per liked video in order, the results of the
query made of the first four whitespace-separated title tokens (skipping
empty queries), deduplicate by videoId keeping the first occurrence, and
truncate to the limit. -/

/-- Concatenation of per-query results in liked-video order; a video whose
title yields an empty query contributes nothing. -/
def specGather (res : String → List VideoRef) : List LikedVideo → List VideoRef
  | [] => []
  | v :: rest =>
    (if firstFourWords v.title = "" then [] else res (firstFourWords v.title)) ++
      specGather res rest

/-- Deduplication by `videoId`, keeping the first occurrence. -/
def dedupKeepFirst : List VideoRef → List String → List VideoRef
  | [], _ => []
  | r :: rest, seen =>
    if r.videoId ∈ seen then dedupKeepFirst rest seen
    else r :: dedupKeepFirst rest (r.videoId :: seen)

/-- The spec's reference algorithm on given liked videos and per-query
results: concatenate, deduplicate keeping first occurrences, truncate. -/
def recommendSpec (res : String → List VideoRef) (liked : List LikedVideo)
    (limit : Nat) : List VideoRef :=
  (dedupKeepFirst (specGather res liked) []).take limit

/-- The list of results of a per-query search, with a failed search (error
dictionary or a raise, neither of which `isinstance(results, list)` accepts)
contributing nothing. -/
def okSearch (env : Env) (q : String) : List VideoRef :=
  match (search_videos env q 3).1 with
  | .ok (.ok l) => l
  | _ => []

/-! ## auth.py: get_credentials (lines 16-33)

The pickled token file is abstracted into an `Option Credential` store
value; the refresh call and the interactive flow are oracles that may
raise (the code does not catch around them).  Events record the network
calls and store writes the claim counts. -/

/-- The fields of a loaded credential that `get_credentials` reads:
`creds.valid`, `creds.expired`, the truthiness of `creds.refresh_token`,
plus the token payload itself. -/
structure Credential where
  accessToken : String
  refreshToken : Option String
  valid : Bool
  expired : Bool
deriving DecidableEq

/-- Truthiness of `creds.refresh_token` (absent or empty is falsy). -/
def credHasRefresh (c : Credential) : Bool :=
  match c.refreshToken with
  | none => false
  | some t => t ≠ ""

/-- Observable side effects of `get_credentials`. -/
inductive AuthEvent where
  | refreshCall
  | interactiveFlow
  | storeWrite
deriving DecidableEq

/-- The authorization server and the interactive flow, as oracles. -/
structure AuthEnv where
  refresh : Credential → Except PyExn Credential
  flow : Except PyExn Credential

/-- `get_credentials()`: returns the credential, the store content after the
call, and the events performed.  A raising refresh or flow propagates
(nothing catches it inside auth.py). -/
def get_credentials (env : AuthEnv) (store : Option Credential) :
    Except PyExn (Credential × Option Credential × List AuthEvent) :=
  match store with
  | some c =>
    if c.valid then .ok (c, some c, [])
    else if c.expired && credHasRefresh c then
      match env.refresh c with
      | .error e => .error e
      | .ok c' => .ok (c', some c', [.refreshCall, .storeWrite])
    else
      match env.flow with
      | .error e => .error e
      | .ok c' => .ok (c', some c', [.interactiveFlow, .storeWrite])
  | none =>
    match env.flow with
    | .error e => .error e
    | .ok c' => .ok (c', some c', [.interactiveFlow, .storeWrite])

/-! ## Concrete environments for counterexamples and witnesses -/

/-- An environment where everything succeeds and every listing is empty. -/
def baseEnv : Env where
  build := .ok ()
  searchList := fun _ _ => .ok []
  rate := fun _ => .ok ()
  commentInsert := fun _ _ => .ok ()
  subsInsert := fun _ => .ok ()
  videosList := fun _ => .ok []
  likedList := fun _ => .ok []

/-- Environment whose rate call fails with a remote status "404". -/
def env404 : Env := { baseEnv with rate := fun _ => .error (.httpError (some "404") "notFound") }

/-- Environment whose rate call fails with a remote status "500". -/
def env500 : Env := { baseEnv with rate := fun _ => .error (.httpError (some "500") "backendError") }

/-- One liked item titled "hello" and one search result "r1", for the
recommendation counterexample. -/
def envRec : Env :=
  { baseEnv with
    likedList := fun _ => .ok [⟨some "L", some ⟨some "hello", some "c"⟩⟩]
    searchList := fun _ _ => .ok [⟨some (some "r1"), some ⟨some "t", some "c"⟩⟩] }

/-- Environment whose liked-videos listing raises. -/
def envLikedErr : Env :=
  { baseEnv with likedList := fun _ => .error (.httpError none "boom") }

/-- Environment with one liked video whose per-query search raises. -/
def envSearchErr : Env :=
  { baseEnv with
    likedList := fun _ => .ok [⟨some "L", some ⟨some "hello", some "c"⟩⟩]
    searchList := fun _ _ => .error (.httpError none "searchBoom") }

/-- A valid cached credential, for the idempotence witness. -/
def cred0 : Credential :=
  { accessToken := "tok", refreshToken := some "r", valid := true, expired := false }

/-- An authorization-server environment for the idempotence witness. -/
def authEnv0 : AuthEnv where
  refresh := fun c => .ok c
  flow := .ok cred0

/-! ## Lemmas about the embedded regex search -/

theorem takeId_eq_some {t id : List Char} :
    takeId t = some id ↔
      id.length = 11 ∧ id.all isIdChar = true ∧ t.take 11 = id ∧
        delimOk (t.drop 11) = true := by
  constructor
  · intro h
    simp only [takeId] at h
    split_ifs at h with hc
    cases h
    simp only [Bool.and_eq_true, beq_iff_eq] at hc
    exact ⟨hc.1.1, hc.1.2, rfl, hc.2⟩
  · rintro ⟨h1, h2, h3, h4⟩
    simp [takeId, h3, h1, h2, h4]

theorem specIdAt_iff {s : List Char} {i : Nat} {id : List Char} :
    specIdAt s i id ↔ takeId (s.drop i) = some id := by
  rw [takeId_eq_some, List.drop_drop]
  unfold specIdAt
  tauto

theorem take_one_of_take_two {l : List Char} {a b : Char} (h : l.take 2 = [a, b]) :
    l.take 1 = [a] := by
  have hmin : (1 : Nat) ⊓ 2 = 1 := by norm_num
  have h1 : l.take 1 = (l.take 2).take 1 := by
    rw [List.take_take, hmin]
  rw [h1, h]
  rfl

theorem tryP1_eq_some {s : List Char} {i : Nat} {id : List Char} :
    tryP1 (s.drop i) = some id ↔
      ((s.drop i).take 2 = ['v', '='] ∧ specIdAt s (i + 2) id) ∨
      ((s.drop i).take 1 = ['/'] ∧ specIdAt s (i + 1) id) := by
  unfold tryP1
  by_cases h2 : (s.drop i).take 2 = ['v', '=']
  · rw [if_pos h2, List.drop_drop]
    have hne : (s.drop i).take 1 ≠ ['/'] := by
      rw [take_one_of_take_two h2]
      simp
    simp only [h2, true_and, hne, false_and, or_false]
    exact specIdAt_iff.symm
  · rw [if_neg h2]
    by_cases h1 : (s.drop i).take 1 = ['/']
    · rw [if_pos h1, List.drop_drop]
      simp only [h2, false_and, false_or, h1, true_and]
      exact specIdAt_iff.symm
    · rw [if_neg h1]
      simp [h1, h2]

theorem tryP1_none_of_head {l : List Char} {c : Char} (h : l.take 1 = [c])
    (hv : c ≠ 'v') (hs : c ≠ '/') : tryP1 l = none := by
  unfold tryP1
  have h2 : l.take 2 ≠ ['v', '='] := by
    intro hx
    have h' := take_one_of_take_two hx
    rw [h] at h'
    injection h' with hc
    exact hv hc
  have h1 : l.take 1 ≠ ['/'] := by
    rw [h]
    intro hx
    exact hs (by injection hx)
  rw [if_neg h2, if_neg h1]

theorem tryP1_slash {l : List Char} (h : l.take 1 = ['/']) :
    tryP1 l = takeId (l.drop 1) := by
  unfold tryP1
  have h2 : l.take 2 ≠ ['v', '='] := by
    intro hx
    rw [take_one_of_take_two hx] at h
    injection h with h
    exact absurd h (by decide)
  rw [if_neg h2, if_pos h]

theorem searchP1_eq_some {s : List Char} {i : Nat} {id : List Char}
    (hi : tryP1 (s.drop i) = some id)
    (hmin : ∀ j, j < i → tryP1 (s.drop j) = none) :
    searchP1 s = some id := by
  induction s generalizing i with
  | nil =>
    rw [List.drop_nil] at hi
    simp [tryP1, takeId] at hi
  | cons c t ih =>
    cases i with
    | zero =>
      rw [List.drop_zero] at hi
      unfold searchP1
      rw [hi]
    | succ i' =>
      have h0 : tryP1 (c :: t) = none := by
        have := hmin 0 (Nat.succ_pos i')
        rwa [List.drop_zero] at this
      unfold searchP1
      rw [h0]
      exact ih (i := i') hi (fun j hj => hmin (j + 1) (Nat.succ_lt_succ hj))

theorem searchP1_some_exists {s : List Char} {id : List Char}
    (h : searchP1 s = some id) : ∃ i, tryP1 (s.drop i) = some id := by
  induction s with
  | nil => simp [searchP1] at h
  | cons c t ih =>
    unfold searchP1 at h
    cases htry : tryP1 (c :: t) with
    | some id' =>
      rw [htry] at h
      injection h with h
      exact ⟨0, by rw [List.drop_zero, htry, h]⟩
    | none =>
      rw [htry] at h
      obtain ⟨i, hi⟩ := ih h
      exact ⟨i + 1, hi⟩

theorem searchYB_some_exists {s : List Char} {id : List Char}
    (h : searchYB s = some id) : ∃ i, tryYB (s.drop i) = some id := by
  induction s with
  | nil => simp [searchYB] at h
  | cons c t ih =>
    unfold searchYB at h
    cases htry : tryYB (c :: t) with
    | some id' =>
      rw [htry] at h
      injection h with h
      exact ⟨0, by rw [List.drop_zero, htry, h]⟩
    | none =>
      rw [htry] at h
      obtain ⟨i, hi⟩ := ih h
      exact ⟨i + 1, hi⟩

theorem hasIdToken_of {s : List Char} {i : Nat}
    (h1 : ((s.drop i).take 11).length = 11)
    (h2 : ((s.drop i).take 11).all isIdChar = true) :
    hasIdToken s = true := by
  induction s generalizing i with
  | nil => simp at h1
  | cons c t ih =>
    cases i with
    | zero =>
      rw [List.drop_zero] at h1 h2
      unfold hasIdToken
      rw [Bool.or_eq_true, Bool.and_eq_true]
      exact Or.inl ⟨beq_iff_eq.mpr h1, h2⟩
    | succ i' =>
      have hd : (c :: t).drop (i' + 1) = t.drop i' := rfl
      rw [hd] at h1 h2
      unfold hasIdToken
      rw [Bool.or_eq_true]
      exact Or.inr (ih h1 h2)

/-- Claim C1 (amended): `extract_video_id` is characterized by the spec's URL
grammar with leftmost disambiguation: when an accepted shape occurs at
position `i` and no accepted shape occurs at any earlier position, the
function returns exactly that shape's 11-character id; and for any string
with no 11-character token over `[0-9A-Za-z_-]` it returns `none`. -/
theorem extract_video_id_grammar (s : String) :
    (∀ i id, shapeAt s.data i id →
        (∀ j id', j < i → ¬ shapeAt s.data j id') →
        extract_video_id s = some (String.mk id)) ∧
    (hasIdToken s.data = false → extract_video_id s = none) := by
  constructor
  · intro i id hshape hmin
    have hlow : ∀ j, j < i → tryP1 (s.data.drop j) = none := by
      intro j hj
      cases hcase : tryP1 (s.data.drop j) with
      | none => rfl
      | some id' =>
        exfalso
        apply hmin j id' hj
        rcases tryP1_eq_some.mp hcase with hx | hx
        · exact Or.inl hx
        · exact Or.inr (Or.inl hx)
    have hP1 : ∃ p, tryP1 (s.data.drop p) = some id ∧
        ∀ j, j < p → tryP1 (s.data.drop j) = none := by
      rcases hshape with ⟨h2, hid⟩ | ⟨h1, hid⟩ | ⟨h9, hid⟩
      · exact ⟨i, tryP1_eq_some.mpr (Or.inl ⟨h2, hid⟩), hlow⟩
      · exact ⟨i, tryP1_eq_some.mpr (Or.inr ⟨h1, hid⟩), hlow⟩
      · refine ⟨i + 8, ?_, ?_⟩
        · have hdrop8 : s.data.drop (i + 8) = (s.data.drop i).drop 8 :=
            (List.drop_drop 8 i s.data).symm
          have hslash : (s.data.drop (i + 8)).take 1 = ['/'] := by
            rw [hdrop8, List.take_drop]
            norm_num
            rw [h9]
            rfl
          rw [tryP1_slash hslash, List.drop_drop]
          have harith : i + 8 + 1 = i + 9 := by omega
          rw [harith]
          exact specIdAt_iff.mp hid
        · intro j hj
          by_cases hji : j < i
          · exact hlow j hji
          · push_neg at hji
            obtain ⟨k, hk8, rfl⟩ : ∃ k, k < 8 ∧ j = i + k :=
              ⟨j - i, by omega, by omega⟩
            have hdropj : s.data.drop (i + k) = (s.data.drop i).drop k :=
              (List.drop_drop k i s.data).symm
            have htake9 : (s.data.drop i).take (k + 1) = ybMarker.take (k + 1) := by
              conv_rhs => rw [← h9]
              rw [List.take_take]
              congr 1
              omega
            have htake1 : (s.data.drop (i + k)).take 1 =
                (ybMarker.take (k + 1)).drop k := by
              rw [hdropj, List.take_drop, htake9]
            interval_cases k
            · exact tryP1_none_of_head (c := 'y') (by rw [htake1]; decide) (by decide) (by decide)
            · exact tryP1_none_of_head (c := 'o') (by rw [htake1]; decide) (by decide) (by decide)
            · exact tryP1_none_of_head (c := 'u') (by rw [htake1]; decide) (by decide) (by decide)
            · exact tryP1_none_of_head (c := 't') (by rw [htake1]; decide) (by decide) (by decide)
            · exact tryP1_none_of_head (c := 'u') (by rw [htake1]; decide) (by decide) (by decide)
            · exact tryP1_none_of_head (c := '.') (by rw [htake1]; decide) (by decide) (by decide)
            · exact tryP1_none_of_head (c := 'b') (by rw [htake1]; decide) (by decide) (by decide)
            · exact tryP1_none_of_head (c := 'e') (by rw [htake1]; decide) (by decide) (by decide)
    obtain ⟨p, hp, hnone⟩ := hP1
    have hs1 := searchP1_eq_some hp hnone
    unfold extract_video_id extractIdL
    rw [hs1]
    rfl
  · intro hno
    have hext : extractIdL s.data = none := by
      unfold extractIdL
      cases h1 : searchP1 s.data with
      | some id =>
        exfalso
        obtain ⟨i, hi⟩ := searchP1_some_exists h1
        rcases tryP1_eq_some.mp hi with ⟨_, hid⟩ | ⟨_, hid⟩
        · obtain ⟨hl, ha, ht, _⟩ := hid
          have htok := hasIdToken_of (s := s.data) (i := i + 2)
            (by rw [ht]; exact hl) (by rw [ht]; exact ha)
          rw [htok] at hno
          simp at hno
        · obtain ⟨hl, ha, ht, _⟩ := hid
          have htok := hasIdToken_of (s := s.data) (i := i + 1)
            (by rw [ht]; exact hl) (by rw [ht]; exact ha)
          rw [htok] at hno
          simp at hno
      | none =>
        cases h2 : searchYB s.data with
        | some id =>
          exfalso
          obtain ⟨i, hi⟩ := searchYB_some_exists h2
          unfold tryYB at hi
          split_ifs at hi with h9
          rw [List.drop_drop] at hi
          obtain ⟨hl, ha, ht, _⟩ := takeId_eq_some.mp hi
          have htok := hasIdToken_of (s := s.data) (i := i + 9)
            (by rw [ht]; exact hl) (by rw [ht]; exact ha)
          rw [htok] at hno
          simp at hno
        | none => rfl
    unfold extract_video_id
    rw [hext]
    rfl

/-- Claim C1, counterexample to the claim as stated: the string
`v=aaaaaaaaaaa&/bbbbbbbbbbb` contains the accepted path-segment shape
`/bbbbbbbbbbb` (11 id characters followed by end of string) at
position 14, yet `extract_video_id` does not return that id — it returns
the id of the earlier `v=` shape. -/
theorem extract_video_id_not_every_shape :
    shapeAt ("v=aaaaaaaaaaa&/bbbbbbbbbbb").data 14 ("bbbbbbbbbbb").data ∧
    extract_video_id "v=aaaaaaaaaaa&/bbbbbbbbbbb" = some "aaaaaaaaaaa" ∧
    extract_video_id "v=aaaaaaaaaaa&/bbbbbbbbbbb" ≠ some "bbbbbbbbbbb" := by
  refine ⟨by decide, rfl, by decide⟩

/-- Witness for the amended claim C1 at concrete inputs: the leftmost (only)
shape of `youtu.be/abcdefghijk` is extracted, and a string with no
11-character token yields `none`. -/
theorem extract_video_id_grammar_witness :
    extract_video_id "youtu.be/abcdefghijk" = some "abcdefghijk" ∧
    extract_video_id "hello" = none := by
  constructor
  · exact (extract_video_id_grammar "youtu.be/abcdefghijk").1 0 ("abcdefghijk").data
      (by decide) (fun j id' hj => absurd hj (Nat.not_lt_zero j))
  · exact (extract_video_id_grammar "hello").2 (by decide)

/-- Claim C2: when no video id is extractable from the argument,
`like_video`, `comment_on_video` and `subscribe_channel` each return the
invalid-video-URL error object and perform no remote call: no client is
built and no remote operation is invoked (empty call trace). -/
theorem invalid_url_no_remote_call (env : Env) (url text : String)
    (h : extract_video_id url = none) :
    like_video env url = (.ok (.err "Invalid video URL"), []) ∧
    comment_on_video env url text = (.ok (.err "Invalid video URL"), []) ∧
    subscribe_channel env url = (.ok (.err "Invalid video URL"), []) := by
  unfold like_video comment_on_video subscribe_channel
  rw [h]
  exact ⟨rfl, rfl, rfl⟩

/-- Witness for claim C2 at a concrete unextractable input. -/
theorem invalid_url_no_remote_call_witness :
    like_video baseEnv "hello" = (.ok (.err "Invalid video URL"), []) ∧
    comment_on_video baseEnv "hello" "hi" = (.ok (.err "Invalid video URL"), []) ∧
    subscribe_channel baseEnv "hello" = (.ok (.err "Invalid video URL"), []) :=
  invalid_url_no_remote_call baseEnv "hello" "hi" rfl

/-- Claim C3, counterexample to the claim as stated: for a URL with no
extractable id and empty text, `comment_on_video` returns the
invalid-video-URL object, not the comment-text-required one — the id
extraction is checked first, not the non-empty-text requirement. -/
theorem comment_empty_text_not_first :
    comment_on_video baseEnv "xyz" "" = (.ok (.err "Invalid video URL"), []) ∧
    ("Invalid video URL" : String) ≠ "Comment text required" :=
  ⟨rfl, by decide⟩

/-- Claim C3 (amended): for every URL with an extractable video id,
`comment_on_video` with empty text returns the comment-text-required error
object and performs no remote call; the text check runs after (not before)
video-id extraction. -/
theorem comment_empty_text_rejected (env : Env) (url vid : String)
    (h : extract_video_id url = some vid) :
    comment_on_video env url "" = (.ok (.err "Comment text required"), []) := by
  unfold comment_on_video
  rw [h]
  rfl

/-- Witness for the amended claim C3 at a concrete extractable URL. -/
theorem comment_empty_text_rejected_witness :
    comment_on_video baseEnv "youtu.be/abcdefghijk" "" =
      (.ok (.err "Comment text required"), []) :=
  comment_empty_text_rejected baseEnv "youtu.be/abcdefghijk" "abcdefghijk" rfl

/-- Claim C4, counterexample to the claim as stated: with limit `0 < 1`,
`search_videos` still issues the remote search call and returns a Success
value — no local validation rejects the limit. -/
theorem search_limit_zero_not_rejected :
    (0 : Nat) < 1 ∧
    search_videos baseEnv "q" 0 =
      (Except.ok (ApiOut.ok ([] : List VideoRef)),
        [Call.buildClient, Call.searchList "q" 0]) :=
  ⟨by decide, rfl⟩

/-- Claim C4 (amended): `search_videos` performs no validation of its limit:
whenever the client builds, the remote search call is issued with the given
limit unchanged, including limits below 1. -/
theorem search_videos_no_limit_validation (env : Env) (q : String) (n : Nat)
    (h : env.build = .ok ()) :
    (search_videos env q n).2 = [Call.buildClient, Call.searchList q n] := by
  unfold search_videos
  rw [h]
  cases h2 : env.searchList q n with
  | error e => rfl
  | ok items =>
    dsimp only
    cases h3 : collectSearchItems items <;> rfl

/-- Witness for the amended claim C4 at a concrete limit below 1. -/
theorem search_videos_no_limit_validation_witness :
    (search_videos baseEnv "q" 0).2 = [Call.buildClient, Call.searchList "q" 0] :=
  search_videos_no_limit_validation baseEnv "q" 0 rfl

/-- Claim C5, counterexample to the claim as stated: a remote rate failure
with status "404" and one with status "500" both come back as `error`-keyed
objects with the same discriminant — the 404 case is distinguishable only
by its message text, not by the discriminant alone. -/
theorem like_video_404_same_discriminant :
    (like_video env404 "youtu.be/abcdefghijk").1 =
      Except.ok (ApiOut.err "Video not found or inaccessible (404).") ∧
    (like_video env500 "youtu.be/abcdefghijk").1 =
      Except.ok (ApiOut.err "HttpError: backendError") ∧
    apiTag (ApiOut.err "Video not found or inaccessible (404)." : ApiOut String) =
      apiTag (ApiOut.err "HttpError: backendError" : ApiOut String) :=
  ⟨rfl, rfl, rfl⟩

/-- Claim C5 (amended): a remote rate failure whose `resp.status` reads
"404" yields the fixed message `Video not found or inaccessible (404).`,
distinct from the generic `HttpError: ...` text; the discriminant (the
`error` key) is however the same as for every other failure, so the
distinction is by message text only. -/
theorem like_video_404_message (env : Env) (url vid m : String)
    (h1 : extract_video_id url = some vid) (h2 : env.build = .ok ())
    (h3 : env.rate vid = .error (.httpError (some "404") m)) :
    like_video env url =
      (.ok (.err "Video not found or inaccessible (404)."),
        [.buildClient, .rate vid]) := by
  unfold like_video
  rw [h1]
  dsimp only
  rw [h2]
  dsimp only
  rw [h3]
  rfl

/-- Witness for the amended claim C5 at a concrete 404 environment. -/
theorem like_video_404_message_witness :
    like_video env404 "youtu.be/abcdefghijk" =
      (.ok (.err "Video not found or inaccessible (404)."),
        [.buildClient, .rate "abcdefghijk"]) :=
  like_video_404_message env404 "youtu.be/abcdefghijk" "abcdefghijk" "notFound" rfl rfl rfl

/-! ## Total-ness of the operations: every branch returns, nothing raises -/

theorem search_videos_no_raise (env : Env) (q : String) (n : Nat) :
    ∃ o, (search_videos env q n).1 = Except.ok o := by
  unfold search_videos
  cases env.build with
  | error e => exact ⟨_, rfl⟩
  | ok u =>
    dsimp only
    cases env.searchList q n with
    | error e => exact ⟨_, rfl⟩
    | ok items =>
      dsimp only
      cases collectSearchItems items with
      | error e => exact ⟨_, rfl⟩
      | ok refs => exact ⟨_, rfl⟩

theorem get_liked_videos_no_raise (env : Env) (n : Nat) :
    ∃ o, (get_liked_videos env n).1 = Except.ok o := by
  unfold get_liked_videos
  cases env.build with
  | error e => exact ⟨_, rfl⟩
  | ok u =>
    dsimp only
    cases env.likedList n with
    | error e => exact ⟨_, rfl⟩
    | ok items => exact ⟨_, rfl⟩

theorem like_video_no_raise (env : Env) (url : String) :
    ∃ o, (like_video env url).1 = Except.ok o := by
  unfold like_video
  cases extract_video_id url with
  | none => exact ⟨_, rfl⟩
  | some vid =>
    dsimp only
    cases env.build with
    | error e => exact ⟨_, rfl⟩
    | ok u =>
      dsimp only
      cases env.rate vid with
      | error e => exact ⟨_, rfl⟩
      | ok v => exact ⟨_, rfl⟩

theorem comment_on_video_no_raise (env : Env) (url text : String) :
    ∃ o, (comment_on_video env url text).1 = Except.ok o := by
  unfold comment_on_video
  cases extract_video_id url with
  | none => exact ⟨_, rfl⟩
  | some vid =>
    dsimp only
    by_cases ht : text = ""
    · rw [if_pos ht]
      exact ⟨_, rfl⟩
    · rw [if_neg ht]
      cases env.build with
      | error e => exact ⟨_, rfl⟩
      | ok u =>
        dsimp only
        cases env.commentInsert vid text with
        | error e => exact ⟨_, rfl⟩
        | ok v => exact ⟨_, rfl⟩

theorem subscribe_channel_no_raise (env : Env) (url : String) :
    ∃ o, (subscribe_channel env url).1 = Except.ok o := by
  unfold subscribe_channel
  cases extract_video_id url with
  | none => exact ⟨_, rfl⟩
  | some vid =>
    dsimp only
    cases extract_channel_id_from_video env vid with
    | mk chanOpt t0 =>
      cases chanOpt with
      | none => exact ⟨_, rfl⟩
      | some cid =>
        dsimp only
        by_cases hc : cid = ""
        · rw [if_pos hc]
          exact ⟨_, rfl⟩
        · rw [if_neg hc]
          cases env.build with
          | error e => exact ⟨_, rfl⟩
          | ok u =>
            dsimp only
            cases env.subsInsert cid with
            | error e => exact ⟨_, rfl⟩
            | ok v => exact ⟨_, rfl⟩

theorem okSearch_eq {env : Env} {q : String} {l : List VideoRef}
    (h : (search_videos env q 3).1 = Except.ok (ApiOut.ok l)) :
    okSearch env q = l := by
  unfold okSearch
  rw [h]

theorem gatherLoop_fst (env : Env) :
    ∀ liked, (gatherLoop env liked).1 = Except.ok (specGather (okSearch env) liked) := by
  intro liked
  induction liked with
  | nil => rfl
  | cons v rest ih =>
    unfold gatherLoop specGather
    by_cases hq : firstFourWords v.title = ""
    · simp only [if_pos hq, List.nil_append]
      exact ih
    · simp only [if_neg hq]
      obtain ⟨o, ho⟩ := search_videos_no_raise env (firstFourWords v.title) 3
      cases hs : search_videos env (firstFourWords v.title) 3 with
      | mk res t =>
        rw [hs] at ho
        dsimp only at ho ⊢
        subst ho
        cases hg : gatherLoop env rest with
        | mk gres gt =>
          rw [hg] at ih
          dsimp only at ih ⊢
          subst ih
          cases o with
          | ok l =>
            dsimp only
            have hok : okSearch env (firstFourWords v.title) = l := by
              unfold okSearch
              rw [hs]
            rw [hok]
          | err m =>
            dsimp only
            have hok : okSearch env (firstFourWords v.title) = [] := by
              unfold okSearch
              rw [hs]
            rw [hok, List.nil_append]

theorem get_recommended_videos_no_raise (env : Env) (n : Nat) :
    ∃ o, (get_recommended_videos env n).1 = Except.ok o := by
  unfold get_recommended_videos
  cases hl : get_liked_videos env 10 with
  | mk lres lt =>
    cases lres with
    | error e => exact ⟨_, rfl⟩
    | ok out =>
      cases out with
      | err m => exact ⟨_, rfl⟩
      | ok liked =>
        dsimp only
        cases hg : gatherLoop env liked with
        | mk gres gt =>
          have hfst := gatherLoop_fst env liked
          rw [hg] at hfst
          dsimp only at hfst
          subst hfst
          exact ⟨_, rfl⟩

/-- Claim C6: every public operation, for every input and every exception
raised by the remote transport, returns a value of the tagged
Success/Failure shape (`ApiOut`) and never propagates an uncaught
exception (`Except.error`) to its caller. -/
theorem operations_never_raise (env : Env) (q url text : String) (n m k : Nat) :
    (∃ o, (search_videos env q n).1 = Except.ok o) ∧
    (∃ o, (get_liked_videos env m).1 = Except.ok o) ∧
    (∃ o, (get_recommended_videos env k).1 = Except.ok o) ∧
    (∃ o, (like_video env url).1 = Except.ok o) ∧
    (∃ o, (comment_on_video env url text).1 = Except.ok o) ∧
    (∃ o, (subscribe_channel env url).1 = Except.ok o) :=
  ⟨search_videos_no_raise env q n, get_liked_videos_no_raise env m,
    get_recommended_videos_no_raise env k, like_video_no_raise env url,
    comment_on_video_no_raise env url text, subscribe_channel_no_raise env url⟩

/-! ## Deduplication lemmas -/

theorem dedupLoop_nodup (limit : Nat) :
    ∀ (l : List VideoRef) (seen : List String) (cnt : Nat),
      ((dedupLoop limit l seen cnt).map (fun r => r.videoId)).Nodup ∧
      ∀ v ∈ (dedupLoop limit l seen cnt).map (fun r => r.videoId), v ∉ seen := by
  intro l
  induction l with
  | nil =>
    intro seen cnt
    constructor
    · simp [dedupLoop]
    · simp [dedupLoop]
  | cons r rest ih =>
    intro seen cnt
    by_cases hskip : r.videoId = "" ∨ r.videoId ∈ seen
    · simp only [dedupLoop, if_pos hskip]
      exact ih seen cnt
    · have hnin : r.videoId ∉ seen := fun hx => hskip (Or.inr hx)
      by_cases hbr : limit ≤ cnt + 1
      · simp only [dedupLoop, if_neg hskip, if_pos hbr]
        constructor
        · simp
        · intro v hv
          simp only [List.map_cons, List.map_nil, List.mem_singleton] at hv
          subst hv
          exact hnin
      · simp only [dedupLoop, if_neg hskip, if_neg hbr]
        obtain ⟨ihn, ihm⟩ := ih (r.videoId :: seen) (cnt + 1)
        constructor
        · simp only [List.map_cons, List.nodup_cons]
          refine ⟨fun hmem => ?_, ihn⟩
          exact (ihm _ hmem) (List.mem_cons_self _ _)
        · intro v hv
          simp only [List.map_cons, List.mem_cons] at hv
          rcases hv with rfl | hv
          · exact hnin
          · exact fun hcon => (ihm v hv) (List.mem_cons_of_mem _ hcon)

theorem dedupLoop_length (limit : Nat) :
    ∀ (l : List VideoRef) (seen : List String) (cnt : Nat), cnt < limit →
      (dedupLoop limit l seen cnt).length ≤ limit - cnt := by
  intro l
  induction l with
  | nil =>
    intro seen cnt h
    simp [dedupLoop]
  | cons r rest ih =>
    intro seen cnt hcnt
    by_cases hskip : r.videoId = "" ∨ r.videoId ∈ seen
    · simp only [dedupLoop, if_pos hskip]
      exact ih seen cnt hcnt
    · by_cases hbr : limit ≤ cnt + 1
      · simp only [dedupLoop, if_neg hskip, if_pos hbr, List.length_singleton]
        omega
      · simp only [dedupLoop, if_neg hskip, if_neg hbr, List.length_cons]
        have := ih (r.videoId :: seen) (cnt + 1) (by omega)
        omega

theorem dedupLoop_eq_take (limit : Nat) :
    ∀ (l : List VideoRef) (seen : List String) (cnt : Nat), cnt < limit →
      (∀ r ∈ l, r.videoId ≠ "") →
      dedupLoop limit l seen cnt = (dedupKeepFirst l seen).take (limit - cnt) := by
  intro l
  induction l with
  | nil =>
    intro seen cnt h hids
    simp [dedupLoop, dedupKeepFirst]
  | cons r rest ih =>
    intro seen cnt hcnt hids
    have hr : r.videoId ≠ "" := hids r (List.mem_cons_self r rest)
    have hrest : ∀ x ∈ rest, x.videoId ≠ "" :=
      fun x hx => hids x (List.mem_cons_of_mem r hx)
    by_cases hmem : r.videoId ∈ seen
    · simp only [dedupLoop, if_pos (Or.inr hmem), dedupKeepFirst, if_pos hmem]
      exact ih seen cnt hcnt hrest
    · have hcond : ¬(r.videoId = "" ∨ r.videoId ∈ seen) := by
        intro h
        rcases h with h | h
        · exact hr h
        · exact hmem h
      by_cases hbr : limit ≤ cnt + 1
      · simp only [dedupLoop, if_neg hcond, if_pos hbr, dedupKeepFirst, if_neg hmem]
        have h1 : limit - cnt = 1 := by omega
        rw [h1]
        rfl
      · simp only [dedupLoop, if_neg hcond, if_neg hbr, dedupKeepFirst, if_neg hmem]
        have h1 : limit - cnt = (limit - (cnt + 1)) + 1 := by omega
        rw [h1, List.take_succ_cons]
        congr 1
        exact ih (r.videoId :: seen) (cnt + 1) (by omega) hrest

/-! ## Nonempty ids of search results -/

theorem collectSearchItems_ids_ne :
    ∀ {items : List SearchItem} {refs : List VideoRef},
      collectSearchItems items = Except.ok refs → ∀ r ∈ refs, r.videoId ≠ "" := by
  intro items
  induction items with
  | nil =>
    intro refs h r hr
    unfold collectSearchItems at h
    injection h with h
    subst h
    simp at hr
  | cons item rest ih =>
    intro refs h r hr
    unfold collectSearchItems at h
    cases hI : item.id with
    | none =>
      rw [hI] at h
      simp at h
    | some vidOpt =>
      rw [hI] at h
      dsimp only at h
      cases hrec : collectSearchItems rest with
      | error e =>
        rw [hrec] at h
        simp at h
      | ok tail =>
        rw [hrec] at h
        dsimp only at h
        cases vidOpt with
        | none =>
          injection h with h
          subst h
          exact ih hrec r hr
        | some vid =>
          dsimp only at h
          by_cases hv : vid = ""
          · rw [if_pos hv] at h
            injection h with h
            subst h
            exact ih hrec r hr
          · rw [if_neg hv] at h
            injection h with h
            subst h
            rcases List.mem_cons.mp hr with rfl | hr2
            · exact hv
            · exact ih hrec r hr2

theorem search_ok_ids_ne {env : Env} {q : String} {n : Nat} {l : List VideoRef}
    (h : (search_videos env q n).1 = Except.ok (ApiOut.ok l)) :
    ∀ r ∈ l, r.videoId ≠ "" := by
  unfold search_videos at h
  cases hb : env.build with
  | error e =>
    rw [hb] at h
    cases e <;> simp [searchHandler] at h
  | ok u =>
    rw [hb] at h
    dsimp only at h
    cases hs : env.searchList q n with
    | error e =>
      rw [hs] at h
      cases e <;> simp [searchHandler] at h
    | ok items =>
      rw [hs] at h
      dsimp only at h
      cases hc : collectSearchItems items with
      | error e =>
        rw [hc] at h
        dsimp only at h
        cases e <;> simp [searchHandler] at h
      | ok refs =>
        rw [hc] at h
        dsimp only at h
        injection h with h
        injection h with h
        subst h
        exact collectSearchItems_ids_ne hc

theorem specGather_congr {f g : String → List VideoRef} (h : ∀ q, f q = g q) :
    ∀ liked, specGather f liked = specGather g liked := by
  intro liked
  induction liked with
  | nil => rfl
  | cons v rest ih =>
    unfold specGather
    rw [ih, h]

theorem specGather_ids_ne {res : String → List VideoRef}
    (hres : ∀ q r, r ∈ res q → r.videoId ≠ "") :
    ∀ liked, ∀ r ∈ specGather res liked, r.videoId ≠ "" := by
  intro liked
  induction liked with
  | nil =>
    intro r hr
    simp [specGather] at hr
  | cons v rest ih =>
    intro r hr
    unfold specGather at hr
    rcases List.mem_append.mp hr with h1 | h2
    · by_cases hq : firstFourWords v.title = ""
      · rw [if_pos hq] at h1
        simp at h1
      · rw [if_neg hq] at h1
        exact hres _ r h1
    · exact ih r h2

/-- Claim C8: whatever the remote service returns, when
`get_recommended_videos(limit=10)` produces a Success list, that list has no
two entries with the same videoId and its length is at most the limit. -/
theorem recommend_nodup_bounded (env : Env) (l : List VideoRef)
    (h : (get_recommended_videos env 10).1 = Except.ok (ApiOut.ok l)) :
    (l.map (fun r => r.videoId)).Nodup ∧ l.length ≤ 10 := by
  unfold get_recommended_videos at h
  cases hl : get_liked_videos env 10 with
  | mk lres lt =>
    rw [hl] at h
    cases lres with
    | error e =>
      simp at h
    | ok out =>
      cases out with
      | err m =>
        simp at h
      | ok liked =>
        dsimp only at h
        cases hg : gatherLoop env liked with
        | mk gres gt =>
          rw [hg] at h
          have hfst := gatherLoop_fst env liked
          rw [hg] at hfst
          dsimp only at hfst
          subst hfst
          dsimp only at h
          injection h with h
          injection h with h
          subst h
          constructor
          · exact (dedupLoop_nodup 10 _ [] 0).1
          · have hle := dedupLoop_length 10 (specGather (okSearch env) liked) [] 0 (by omega)
            omega

/-- Witness for claim C8 at a concrete environment. -/
theorem recommend_nodup_bounded_witness :
    ((([] : List VideoRef)).map (fun r => r.videoId)).Nodup ∧
    ([] : List VideoRef).length ≤ 10 :=
  recommend_nodup_bounded baseEnv [] rfl

/-- Claim C10: a Failure of the initial liked-videos fetch is returned
unchanged by `get_recommended_videos`; a Failure of any per-query search is
silently omitted — the result is the deduplication of exactly the
successful searches' lists (`okSearch` maps a failed query to the empty
contribution), and no search error ever surfaces. -/
theorem recommend_omits_failed_searches (env : Env) (limit : Nat) :
    (∀ m t, get_liked_videos env 10 = (Except.ok (ApiOut.err m), t) →
      (get_recommended_videos env limit).1 = Except.ok (ApiOut.err m)) ∧
    (∀ liked t, get_liked_videos env 10 = (Except.ok (ApiOut.ok liked), t) →
      (get_recommended_videos env limit).1 =
        Except.ok (ApiOut.ok (dedupLoop limit (specGather (okSearch env) liked) [] 0))) := by
  constructor
  · intro m t hl
    unfold get_recommended_videos
    rw [hl]
  · intro liked t hl
    unfold get_recommended_videos
    rw [hl]
    dsimp only
    cases hg : gatherLoop env liked with
    | mk gres gt =>
      have hfst := gatherLoop_fst env liked
      rw [hg] at hfst
      dsimp only at hfst
      subst hfst
      rfl

/-- Witness for claim C10: a liked-fetch failure propagates unchanged, and
an environment whose every search raises still produces a Success (with the
failed queries contributing nothing). -/
theorem recommend_omits_failed_searches_witness :
    (get_recommended_videos envLikedErr 5).1 = Except.ok (ApiOut.err "HttpError: boom") ∧
    (get_recommended_videos envSearchErr 5).1 =
      Except.ok (ApiOut.ok (dedupLoop 5
        (specGather (okSearch envSearchErr) [⟨some "L", "hello", "c"⟩]) [] 0)) :=
  ⟨(recommend_omits_failed_searches envLikedErr 5).1 "HttpError: boom"
      [Call.buildClient, Call.likedList 10] rfl,
    (recommend_omits_failed_searches envSearchErr 5).2 [⟨some "L", "hello", "c"⟩]
      [Call.buildClient, Call.likedList 10] rfl⟩

/-- Claim C7, counterexample to the claim as stated: at limit 0 the
premises hold (the liked fetch and every per-query search succeed) yet the
code returns one recommendation where the reference algorithm truncates to
the empty list — the truncation check runs only after appending. -/
theorem recommend_limit_zero_not_truncated :
    (get_recommended_videos envRec 0).1 =
      Except.ok (ApiOut.ok [⟨"r1", "t", "c"⟩]) ∧
    recommendSpec (fun _ => [⟨"r1", "t", "c"⟩]) [⟨some "L", "hello", "c"⟩] 0 = [] ∧
    ([⟨"r1", "t", "c"⟩] : List VideoRef) ≠ [] ∧
    (∀ q, (search_videos envRec q 3).1 = Except.ok (ApiOut.ok [⟨"r1", "t", "c"⟩])) ∧
    get_liked_videos envRec 10 =
      (Except.ok (ApiOut.ok [⟨some "L", "hello", "c"⟩]),
        [Call.buildClient, Call.likedList 10]) :=
  ⟨rfl, rfl, by simp, fun q => rfl, rfl⟩

/-- Claim C7 (amended): for every limit of at least 1, when the liked-videos
fetch succeeds and every per-query search succeeds,
`get_recommended_videos` equals the spec's reference algorithm:
concatenate per-query results in liked order (queries being the first four
whitespace-separated title tokens, empty queries skipped), deduplicate by
videoId keeping first occurrences, and truncate to the limit. -/
theorem recommend_matches_reference (env : Env) (limit : Nat)
    (liked : List LikedVideo) (t : List Call) (res : String → List VideoRef)
    (hlim : 1 ≤ limit)
    (hliked : get_liked_videos env 10 = (Except.ok (ApiOut.ok liked), t))
    (hres : ∀ q, (search_videos env q 3).1 = Except.ok (ApiOut.ok (res q))) :
    (get_recommended_videos env limit).1 =
      Except.ok (ApiOut.ok (recommendSpec res liked limit)) := by
  have hok : ∀ q, okSearch env q = res q := fun q => okSearch_eq (hres q)
  have hgeq : specGather (okSearch env) liked = specGather res liked :=
    specGather_congr hok liked
  unfold get_recommended_videos
  rw [hliked]
  dsimp only
  cases hg : gatherLoop env liked with
  | mk gres gt =>
    have hfst := gatherLoop_fst env liked
    rw [hg] at hfst
    dsimp only at hfst
    subst hfst
    dsimp only
    rw [hgeq]
    have hids : ∀ r ∈ specGather res liked, r.videoId ≠ "" :=
      specGather_ids_ne (fun q r hr => search_ok_ids_ne (hres q) r hr) liked
    rw [dedupLoop_eq_take limit _ [] 0 (by omega) hids]
    unfold recommendSpec
    rw [Nat.sub_zero]

/-- Witness for the amended claim C7: one liked video titled "hello", one
search result per query, limit 1. -/
theorem recommend_matches_reference_witness :
    (get_recommended_videos envRec 1).1 =
      Except.ok (ApiOut.ok (recommendSpec (fun _ => [⟨"r1", "t", "c"⟩])
        [⟨some "L", "hello", "c"⟩] 1)) :=
  recommend_matches_reference envRec 1 [⟨some "L", "hello", "c"⟩]
    [Call.buildClient, Call.likedList 10] (fun _ => [⟨"r1", "t", "c"⟩])
    (by omega) rfl (fun q => rfl)

/-- Claim C9: with an already-valid cached credential, `get_credentials`
returns it unchanged with no refresh call, no interactive flow and no store
write, and a second call in succession behaves identically, returning the
same credential. -/
theorem get_credentials_idempotent (env : AuthEnv) (c : Credential)
    (h : c.valid = true) :
    get_credentials env (some c) = Except.ok (c, some c, []) ∧
    ∀ res store trace,
      get_credentials env (some c) = Except.ok (res, store, trace) →
      res = c ∧ trace = [] ∧ get_credentials env store = Except.ok (c, store, []) := by
  have h1 : get_credentials env (some c) = Except.ok (c, some c, []) := by
    unfold get_credentials
    dsimp only
    rw [if_pos h]
  refine ⟨h1, ?_⟩
  intro res store trace hr
  rw [h1] at hr
  injection hr with hr
  obtain ⟨hc1, hc2, hc3⟩ : c = res ∧ some c = store ∧ ([] : List AuthEvent) = trace := by
    simpa [Prod.ext_iff] using hr
  subst hc1
  subst hc2
  subst hc3
  exact ⟨rfl, rfl, h1⟩

/-- Witness for claim C9 at a concrete valid credential. -/
theorem get_credentials_idempotent_witness :
    get_credentials authEnv0 (some cred0) = Except.ok (cred0, some cred0, []) :=
  (get_credentials_idempotent authEnv0 cred0 rfl).1
